import Mathlib

/-!
Verification of the KV-cache-aware routing core of `dynamo`.

This file shallowly embeds the three source files

* `src/lib/llm/src/kv_router/scheduler.rs` (worker selection, softmax sampling,
  the scheduler loop, and the caller-facing `schedule` entry point),
* `src/lib/llm/src/kv_router/subscriber.rs` (orphaned-consumer cleanup and the
  steady-state router-deletion handler), and
* `src/lib/runtime/src/pipeline/network/egress/addressed_router.rs` (the
  response-stream closure of the addressed transport),

and proves properties of the embedding.  Modelling conventions:

* Rust `f64` values are modelled as rationals `ℚ`; `f64::exp` is passed as an
  explicit function parameter `e : ℚ → ℚ` (the exponential is only applied, so
  no theorem here depends on its values).
* `HashMap<K, V>` is modelled as an association list `List (K × V)` in its
  (arbitrary) iteration order, with `List.lookup` for `get`.
* The RNG is made explicit: `rng.random_range(0..n)` becomes `randIndex % n`
  for a caller-supplied `randIndex : ℕ`, and `rng.random()` becomes a
  caller-supplied rational `randSample`.
* Rust panics are modelled as explicit `panicked` outcomes.
-/

set_option autoImplicit false

/-! ## Data model (scheduler.rs) -/

/-- Event published on the `kv_hit_rate` subject (scheduler.rs, `KVHitRateEvent`). -/
structure KVHitRateEvent where
  worker_id : Int
  isl_blocks : Nat
  overlap_blocks : Nat
  deriving DecidableEq, Repr

/-- Reply sent to the caller of `schedule` (scheduler.rs, `SchedulingResponse`). -/
structure SchedulingResponse where
  best_worker_id : Int
  overlap_blocks : Nat
  deriving DecidableEq, Repr

/-- Error enum of the scheduler (scheduler.rs, `KvSchedulerError`). -/
inductive KvSchedulerError where
  | NoEndpoints
  | AllWorkersBusy
  | SubscriberShutdown
  deriving DecidableEq, Repr

/-- Per-request overrides of the router tunables (`RouterConfigOverride`). -/
structure RouterConfigOverride where
  overlap_score_weight : Option ℚ
  router_temperature : Option ℚ
  deriving DecidableEq, Repr

/-- Router tunables (`KvRouterConfig`): both weights are `f64`, modelled as `ℚ`. -/
structure KvRouterConfig where
  overlap_score_weight : ℚ
  router_temperature : ℚ
  deriving DecidableEq, Repr

/-- Worker runtime configuration.  Of `ModelRuntimeConfig` the selector consults
only `runtime_data.get("disaggregation_mode")` (a JSON value, in practice a
string, modelled as `Option String`) and `total_kv_blocks` (which feeds logging
only). -/
structure ModelRuntimeConfig where
  disaggregation_mode : Option String
  total_kv_blocks : Option Nat
  deriving DecidableEq, Repr

/-- Overlap scores (`indexer::OverlapScores`): per-worker count of already
cached leading blocks; missing key means 0. -/
structure OverlapScores where
  scores : List (Int × Nat)
  deriving DecidableEq, Repr

/-- A scheduling request (scheduler.rs, `SchedulingRequest`).  The one-shot
reply channel `resp_tx` is not a field here; replying is modelled at the
scheduler-loop level (see `scheduler_step` and `caller_observes`). -/
structure SchedulingRequest where
  maybe_request_id : Option String
  token_seq : Option (List Nat)
  isl_tokens : Nat
  overlaps : OverlapScores
  decode_blocks : List (Int × Nat)
  prefill_tokens : List (Int × Nat)
  router_config_override : Option RouterConfigOverride
  update_states : Bool
  deriving DecidableEq, Repr

/-- Result of worker selection (`protocols::WorkerSelectionResult`). -/
structure WorkerSelectionResult where
  worker_id : Int
  required_blocks : Nat
  overlap_blocks : Nat
  deriving DecidableEq, Repr

/-- Outcome of a call to `select_worker`.  The Rust signature is
`Result<WorkerSelectionResult, KvSchedulerError>`; `panicked` captures the
places where the Rust code panics instead of returning. -/
inductive SelectOutcome where
  | ok (result : WorkerSelectionResult)
  | err (e : KvSchedulerError)
  | panicked (msg : String)
  deriving DecidableEq, Repr

/-! ## softmax_sample (scheduler.rs lines 390-459) -/

/-- Minimum of a list of rationals.  The source folds `f64::INFINITY.min`
over the values; on the non-empty lists this is applied to, folding `min`
from the head is the same value. -/
def foldMin : List ℚ → ℚ
  | [] => 0
  | v :: vs => vs.foldl min v

/-- Maximum of a list of rationals.  The source folds `f64::NEG_INFINITY.max`
over the values; on the non-empty lists this is applied to, folding `max`
from the head is the same value. -/
def foldMax : List ℚ → ℚ
  | [] => 0
  | v :: vs => vs.foldl max v

/-- The minimum logit value of a logit map (`min_logit` in the temperature-0
branch of `softmax_sample`). -/
def min_logit (logits : List (Int × ℚ)) : ℚ :=
  foldMin (logits.map Prod.snd)

/-- Keys attaining the minimum logit (`min_keys` in the temperature-0 branch
of `softmax_sample`). -/
def argmin_keys (logits : List (Int × ℚ)) : List Int :=
  (logits.filter (fun p => p.2 = min_logit logits)).map Prod.fst

/-- The inverse-CDF sampling loop of `softmax_sample`: walk key/probability
pairs accumulating `cumsum`, returning the first key whose cumulative
probability reaches `sample`; `none` when the loop falls through (the Rust
code then falls back to the last key). -/
def cdfWalk (pairs : List (Int × ℚ)) (sample : ℚ) (cumsum : ℚ) : Option Int :=
  match pairs with
  | [] => none
  | (k, p) :: rest =>
      if sample ≤ cumsum + p then some k else cdfWalk rest sample (cumsum + p)

/-- The final sampling step of `softmax_sample` (lines 445-458): inverse-CDF
walk over the probabilities, falling back to the last key
(`keys[keys.len() - 1]`) when the loop falls through. -/
def cdfPick (keys : List Int) (probabilities : List ℚ) (sample : ℚ) : Int :=
  match cdfWalk (keys.zip probabilities) sample 0 with
  | some k => k
  | none => (keys.getLast?).getD 0

/-- `softmax_sample` (scheduler.rs lines 390-459).  Returns `none` exactly
where the Rust code panics with "Empty logits for softmax sampling".
`e` stands for `f64::exp`, `randIndex` for `rng.random_range(0..len)` (used
modulo the number of minimal keys), `randSample` for `rng.random()`. -/
def softmax_sample (logits : List (Int × ℚ)) (temperature : ℚ)
    (e : ℚ → ℚ) (randIndex : Nat) (randSample : ℚ) : Option Int :=
  match logits with
  | [] => none
  | l0 :: ls =>
    if temperature = 0 then
      -- return the key with the smallest logit value, ties broken at random
      let min_keys := argmin_keys (l0 :: ls)
      some (min_keys.getD (randIndex % min_keys.length) 0)
    else
      let keys := (l0 :: ls).map Prod.fst
      let values := (l0 :: ls).map Prod.snd
      let min_val := foldMin values
      let max_val := foldMax values
      let probabilities :=
        if min_val = max_val then
          -- all values are the same, uniform probability
          List.replicate keys.length ((1 : ℚ) / (keys.length : ℚ))
        else
          let normalized := values.map (fun v => -(v / (max_val - min_val)))
          let scaled := normalized.map (fun v => v / temperature)
          let max_scaled := foldMax scaled
          let exp_values := scaled.map (fun v => e (v - max_scaled))
          let sum_exp := exp_values.foldl (· + ·) 0
          exp_values.map (fun v => v / sum_exp)
      -- sample from the probability distribution, falling back to the last key
      some (cdfPick keys probabilities randSample)

/-! ## DefaultWorkerSelector::select_worker (scheduler.rs lines 462-593) -/

/-- The struct `DefaultWorkerSelector`.  `isl_threshold` is an `f64` in the
source (default 1024.0), modelled as `ℚ`. -/
structure DefaultWorkerSelector where
  kv_router_config : KvRouterConfig
  use_isl_threshold : Bool
  isl_threshold : ℚ
  deriving DecidableEq, Repr

/-- Rust `f64 as usize` on a finite value: truncate toward zero and saturate
at 0 from below (the selector only casts its non-negative threshold). -/
def f64_as_usize (q : ℚ) : Nat :=
  Int.toNat ⌊q⌋

/-- `is_pd_separated` for one worker: true when the worker's runtime config is
present and exposes a `disaggregation_mode` different from
`"prefill_and_decode"`; false when the config is absent. -/
def is_pd_separated (workers : List (Int × Option ModelRuntimeConfig)) (worker_id : Int) : Bool :=
  (((List.lookup worker_id workers).bind id).map
    (fun cfg => decide (cfg.disaggregation_mode ≠ some "prefill_and_decode"))).getD false

/-- Body of the per-worker loop of `select_worker` (lines 511-559): computes
the worker's logit and applies the optional ISL-threshold gate, yielding the
`worker_logits` entry inserted for this worker (or `none` when the gate
filters the worker out).  The `overlap` and `max_logit` locals of the source
feed logging only and are omitted. -/
def worker_logit_entry (sel : DefaultWorkerSelector)
    (workers : List (Int × Option ModelRuntimeConfig)) (request : SchedulingRequest)
    (block_size : Nat) (wc : Int × Option ModelRuntimeConfig) : Option (Int × ℚ) :=
  let worker_id := wc.1
  let isl := request.isl_tokens
  let prefill_token := (List.lookup worker_id request.prefill_tokens).getD isl
  let potential_prefill_block : ℚ := (prefill_token : ℚ) / (block_size : ℚ)
  let decode_block : ℚ :=
    ((List.lookup worker_id request.decode_blocks).getD (Int.toNat ⌊potential_prefill_block⌋) : ℚ)
  let overlap_weight : ℚ :=
    (request.router_config_override.bind RouterConfigOverride.overlap_score_weight).getD
      sel.kv_router_config.overlap_score_weight
  let logit := overlap_weight * potential_prefill_block + decode_block
  if sel.use_isl_threshold then
    if (!is_pd_separated workers worker_id && decide (isl < f64_as_usize sel.isl_threshold))
        || (is_pd_separated workers worker_id && decide (f64_as_usize sel.isl_threshold ≤ isl)) then
      some (worker_id, logit)
    else
      none
  else
    some (worker_id, logit)

/-- The `worker_logits` map built by `select_worker` (lines 507-559), in the
iteration order of the `workers` map. -/
def worker_logits (sel : DefaultWorkerSelector)
    (workers : List (Int × Option ModelRuntimeConfig)) (request : SchedulingRequest)
    (block_size : Nat) : List (Int × ℚ) :=
  workers.filterMap (worker_logit_entry sel workers request block_size)

/-- The temperature used for sampling (lines 563-567): the per-request
override when provided, else the router config's `router_temperature`. -/
def effective_temperature (sel : DefaultWorkerSelector) (request : SchedulingRequest) : ℚ :=
  (request.router_config_override.bind RouterConfigOverride.router_temperature).getD
    sel.kv_router_config.router_temperature

/-- `DefaultWorkerSelector::select_worker` (lines 488-592).  Panics are
explicit: the `assert!(request.isl_tokens > 0)` at entry, the division by zero
in `isl.div_ceil(block_size)` when `block_size = 0`, and the panic inside
`softmax_sample` on an empty logit map. -/
def select_worker (sel : DefaultWorkerSelector)
    (workers : List (Int × Option ModelRuntimeConfig)) (request : SchedulingRequest)
    (block_size : Nat) (e : ℚ → ℚ) (randIndex : Nat) (randSample : ℚ) : SelectOutcome :=
  if request.isl_tokens = 0 then
    .panicked "assertion failed: request.isl_tokens > 0"
  else if workers.isEmpty then
    .err .NoEndpoints
  else if block_size = 0 then
    .panicked "attempt to divide by zero"
  else
    let isl := request.isl_tokens
    let request_blocks := (isl + block_size - 1) / block_size
    let logits := worker_logits sel workers request block_size
    match softmax_sample logits (effective_temperature sel request) e randIndex randSample with
    | none => .panicked "Empty logits for softmax sampling"
    | some best_worker_id =>
      .ok { worker_id := best_worker_id
            required_blocks := request_blocks
            overlap_blocks := (List.lookup best_worker_id request.overlaps.scores).getD 0 }

/-! ## The scheduler loop (scheduler.rs lines 199-293) and `schedule` -/

/-- The `add_request` call issued by the scheduler loop after a successful
selection (lines 259-267). -/
structure AddRequestCall where
  request_id : String
  token_seq : Option (List Nat)
  isl_tokens : Nat
  overlap : Nat
  worker_id : Int
  deriving DecidableEq, Repr

/-- Observable effects of one iteration of the scheduler loop on the request
it dequeued: the reply sent on the request's one-shot channel (if any), the
hit-rate event whose publication is attempted (if any), the `add_request`
call issued to the slot tracker (if any), and whether the loop proceeds to
the next request (`continues = false` means the task breaks or unwinds). -/
structure SchedulerStep where
  replied : Option SchedulingResponse
  published : Option KVHitRateEvent
  add_request_issued : Option AddRequestCall
  continues : Bool
  deriving DecidableEq, Repr

/-- One iteration of the scheduler loop after `select_worker` returned
`outcome` for the dequeued `request` (scheduler.rs lines 230-289).  On `Ok`:
publish the hit-rate event, reply, and (when `update_states` and a request id
are present) issue `add_request`.  On `NoEndpoints` / `AllWorkersBusy`: sleep
5 ms and continue, dropping the request without replying.  On any other error
the loop breaks; a panic unwinds the task. -/
def scheduler_step (outcome : SelectOutcome) (request : SchedulingRequest) : SchedulerStep :=
  match outcome with
  | .ok selection =>
    let event : KVHitRateEvent :=
      { worker_id := selection.worker_id
        isl_blocks := selection.required_blocks
        overlap_blocks := selection.overlap_blocks }
    let response : SchedulingResponse :=
      { best_worker_id := selection.worker_id
        overlap_blocks := selection.overlap_blocks }
    if !request.update_states then
      { replied := some response, published := some event
        add_request_issued := none, continues := true }
    else
      match request.maybe_request_id with
      | none =>
        { replied := some response, published := some event
          add_request_issued := none, continues := true }
      | some request_id =>
        { replied := some response, published := some event
          add_request_issued := some
            { request_id := request_id
              token_seq := request.token_seq
              isl_tokens := request.isl_tokens
              overlap := selection.overlap_blocks
              worker_id := selection.worker_id }
          continues := true }
  | .err .NoEndpoints =>
    { replied := none, published := none, add_request_issued := none, continues := true }
  | .err .AllWorkersBusy =>
    { replied := none, published := none, add_request_issued := none, continues := true }
  | .err .SubscriberShutdown =>
    { replied := none, published := none, add_request_issued := none, continues := false }
  | .panicked _ =>
    { replied := none, published := none, add_request_issued := none, continues := false }

/-- What the caller of `KvScheduler::schedule` observes for a request that was
dequeued by the loop. -/
inductive ScheduleResult where
  | ok (worker_id : Int)
  | err (e : KvSchedulerError)
  deriving DecidableEq, Repr

/-- `KvScheduler::schedule` (lines 298-330) after its request was dequeued:
the caller awaits the one-shot receiver; a sent response yields
`Ok(best_worker_id)`, while a dropped sender (the loop dropped the request
without replying — on continue, break, or unwind) makes `resp_rx.await` fail,
which `schedule` maps to `SubscriberShutdown`. -/
def caller_observes (step : SchedulerStep) : ScheduleResult :=
  match step.replied with
  | some response => .ok response.best_worker_id
  | none => .err .SubscriberShutdown

/-! ## Subscriber (subscriber.rs): consumer cleanup -/

/-- Rust `str::contains` on strings, as infix search on the character lists. -/
def string_contains (haystack needle : String) : Bool :=
  decide (needle.toList <:+: haystack.toList)

/-- Rust `str::split('/')` over the character list: the (always non-empty)
list of `/`-separated pieces, in order. -/
def split_slash_aux : List Char → List Char → List (List Char)
  | [], acc => [acc.reverse]
  | c :: rest, acc =>
      if c = '/' then acc.reverse :: split_slash_aux rest []
      else split_slash_aux rest (c :: acc)

/-- Rust `key.split('/').next_back()`: the final `/`-separated segment (always
present; the empty key yields the empty segment). -/
def last_segment (key : String) : String :=
  String.mk (((split_slash_aux key.toList []).getLast?).getD [])

/-- The steady-state router-deletion handler (subscriber.rs lines 404-464):
given a `Delete` event on the live-routers prefix with key `key`, return the
UUID of the durable consumer whose deletion is issued, if any.  Deletions of
keys of other components are skipped; otherwise the last `/`-segment of the
key is taken as the consumer UUID and, when the cleanup lock is acquired,
`nats_queue.shutdown(Some(uuid))` is issued.  The handler does not consult the
task's own `consumer_uuid`. -/
def router_deletion_handler (component_path : String) (key : String)
    (lock_acquired : Bool) : Option String :=
  if !string_contains key component_path then
    none
  else
    let consumer_to_delete := last_segment key
    if lock_acquired then some consumer_to_delete else none

/-- The set of live router UUIDs derived from the etcd entries under the
router prefix (subscriber.rs lines 493-501): the last `/`-segment of each key. -/
def active_uuids (router_entry_keys : List String) : List String :=
  router_entry_keys.map last_segment

/-- `cleanup_orphaned_consumers` (subscriber.rs lines 478-513): the list of
consumers deleted at startup — every listed consumer that is not the task's
own `consumer_uuid` and is not present among the live router UUIDs. -/
def cleanup_orphaned_consumers (consumers : List String)
    (router_entry_keys : List String) (consumer_uuid : String) : List String :=
  consumers.filter (fun consumer =>
    consumer ≠ consumer_uuid && !(active_uuids router_entry_keys).contains consumer)

/-! ## Addressed transport response stream (addressed_router.rs lines 177-230) -/

/-- One message received on the response channel, after the
`serde_json::from_slice::<NetworkStreamWrapper<U>>` decode attempt: either a
parsed wrapper `{complete_final, data}` or a decode failure. -/
inductive RecvMsg where
  | parsed (complete_final : Bool) (data : Option String)
  | malformed
  deriving DecidableEq, Repr

/-- An item emitted by the response stream: a payload, or one of the four
error items the closure constructs via `U::from_err`. -/
inductive RespItem where
  | item (data : String)
  /-- "Response received after generation ended - this should never happen" -/
  | errAfterFinal
  /-- "Empty response received - this should never happen" -/
  | errEmpty
  /-- deserialization failure forwarded as an error item -/
  | errDecode
  /-- `STREAM_ERR_MSG`: the stream ended unexpectedly -/
  | errStreamEnded
  deriving DecidableEq, Repr

/-- The `filter_map` closure of `AddressedPushRouter::generate` (lines
182-228) as an explicit state machine: from the cancellation flag
(`engine_ctx_.is_stopped()`), the current `is_complete_final` flag and the
incoming element (`some` message, or `none` for the channel-closed
notification of `StreamNotifyClose`), produce the emitted item (if any) and
the next `is_complete_final` flag. -/
def response_step (is_stopped : Bool) (is_complete_final : Bool)
    (res : Option RecvMsg) : Option RespItem × Bool :=
  match res with
  | some msg =>
    if is_complete_final then
      (some .errAfterFinal, is_complete_final)
    else
      match msg with
      | .parsed complete_final data =>
        match data with
        | some x => (some (.item x), complete_final)
        | none =>
          if complete_final then (none, complete_final)
          else (some .errEmpty, complete_final)
      | .malformed => (some .errDecode, is_complete_final)
  | none =>
    if is_complete_final then
      (none, is_complete_final)
    else if is_stopped then
      (none, is_complete_final)
    else
      (some .errStreamEnded, is_complete_final)

/-- The items emitted by the response stream over a whole incoming sequence
(`StreamNotifyClose` wraps each channel message as `some` and appends a single
`none` at channel close; `filter_map` drops the `none` results of the closure
and the stream ends when the wrapped sequence does). -/
def response_emissions (is_stopped : Bool) : Bool → List (Option RecvMsg) → List RespItem
  | _, [] => []
  | state, res :: rest =>
    match response_step is_stopped state res with
    | (some item, state2) => item :: response_emissions is_stopped state2 rest
    | (none, state2) => response_emissions is_stopped state2 rest

/-! ## Helper lemmas about minima and sampling -/

theorem foldl_min_mem (l : List ℚ) (a : ℚ) : l.foldl min a ∈ a :: l := by
  induction l generalizing a with
  | nil => simp
  | cons b l ih =>
    rw [List.foldl_cons]
    rcases List.mem_cons.mp (ih (min a b)) with h1 | h1
    · rcases le_total a b with hab | hab
      · rw [h1, min_eq_left hab]
        exact List.mem_cons_self _ _
      · rw [h1, min_eq_right hab]
        exact List.mem_cons_of_mem _ (List.mem_cons_self _ _)
    · exact List.mem_cons_of_mem _ (List.mem_cons_of_mem _ h1)

theorem foldl_min_le (l : List ℚ) (a : ℚ) : ∀ x ∈ a :: l, l.foldl min a ≤ x := by
  induction l generalizing a with
  | nil =>
    intro x hx
    simp_all
  | cons b l ih =>
    intro x hx
    rw [List.foldl_cons]
    rcases List.mem_cons.mp hx with h1 | h1
    · exact le_trans (ih (min a b) (min a b) (List.mem_cons_self _ _)) (h1 ▸ min_le_left a b)
    · rcases List.mem_cons.mp h1 with h2 | h2
      · exact le_trans (ih (min a b) (min a b) (List.mem_cons_self _ _)) (h2 ▸ min_le_right a b)
      · exact ih (min a b) x (List.mem_cons_of_mem _ h2)

theorem min_logit_mem (logits : List (Int × ℚ)) (h : logits ≠ []) :
    ∃ p ∈ logits, p.2 = min_logit logits := by
  match logits with
  | [] => exact absurd rfl h
  | l0 :: ls =>
    have hm : min_logit (l0 :: ls) ∈ l0.2 :: ls.map Prod.snd := by
      unfold min_logit foldMin
      simpa using foldl_min_mem (ls.map Prod.snd) l0.2
    rcases List.mem_cons.mp hm with h1 | h1
    · exact ⟨l0, List.mem_cons_self _ _, h1.symm⟩
    · rcases List.mem_map.mp h1 with ⟨p, hp, hp2⟩
      exact ⟨p, List.mem_cons_of_mem _ hp, hp2⟩

theorem min_logit_le (logits : List (Int × ℚ)) (h : logits ≠ []) :
    ∀ p ∈ logits, min_logit logits ≤ p.2 := by
  match logits with
  | [] => exact absurd rfl h
  | l0 :: ls =>
    intro p hp
    have : p.2 ∈ l0.2 :: ls.map Prod.snd := by
      rcases List.mem_cons.mp hp with h1 | h1
      · simp [h1]
      · exact List.mem_cons_of_mem _ (List.mem_map_of_mem Prod.snd h1)
    unfold min_logit foldMin
    simpa using foldl_min_le (ls.map Prod.snd) l0.2 p.2 this

theorem argmin_keys_ne_nil (logits : List (Int × ℚ)) (h : logits ≠ []) :
    argmin_keys logits ≠ [] := by
  rcases min_logit_mem logits h with ⟨p, hp, hp2⟩
  have : p.1 ∈ argmin_keys logits := by
    unfold argmin_keys
    exact List.mem_map_of_mem Prod.fst (List.mem_filter.mpr ⟨hp, by simp [hp2]⟩)
  exact List.ne_nil_of_mem this

theorem argmin_keys_mem (logits : List (Int × ℚ)) (k : Int) (hk : k ∈ argmin_keys logits) :
    (k, min_logit logits) ∈ logits := by
  unfold argmin_keys at hk
  rcases List.mem_map.mp hk with ⟨p, hp, hp1⟩
  have hf := List.mem_filter.mp hp
  have h2 : p.2 = min_logit logits := by simpa using hf.2
  have : p = (k, min_logit logits) := by
    cases p
    simp_all
  exact this ▸ hf.1

theorem cdfWalk_mem (pairs : List (Int × ℚ)) (s c : ℚ) (k : Int)
    (h : cdfWalk pairs s c = some k) : ∃ p ∈ pairs, p.1 = k := by
  induction pairs generalizing c with
  | nil => simp [cdfWalk] at h
  | cons q rest ih =>
    rw [cdfWalk] at h
    by_cases hle : s ≤ c + q.2
    · refine ⟨q, List.mem_cons_self _ _, ?_⟩
      simp [hle] at h
      exact h
    · simp only [hle, if_neg, ite_false] at h
      rcases ih (c + q.2) h with ⟨p, hp, hp1⟩
      exact ⟨p, List.mem_cons_of_mem _ hp, hp1⟩

theorem cdfPick_mem (keys : List Int) (probs : List ℚ) (s : ℚ) (h : keys ≠ []) :
    cdfPick keys probs s ∈ keys := by
  unfold cdfPick
  rcases hw : cdfWalk (keys.zip probs) s 0 with _ | k
  · rw [List.getLast?_eq_getLast keys h]
    simp only [Option.getD_some]
    exact List.getLast_mem h
  · rcases cdfWalk_mem _ _ _ _ hw with ⟨p, hp, hp1⟩
    obtain ⟨a, b⟩ := p
    exact hp1 ▸ (List.of_mem_zip hp).1

/-- `softmax_sample` on a non-empty logit map always yields a key of the map. -/
theorem softmax_sample_mem (logits : List (Int × ℚ)) (t : ℚ) (e : ℚ → ℚ)
    (i : Nat) (s : ℚ) (h : logits ≠ []) :
    ∃ k, softmax_sample logits t e i s = some k ∧ k ∈ logits.map Prod.fst := by
  match logits with
  | [] => exact absurd rfl h
  | l0 :: ls =>
    rw [softmax_sample]
    by_cases ht : t = 0
    · rw [if_pos ht]
      have hne := argmin_keys_ne_nil (l0 :: ls) h
      have hlen : 0 < (argmin_keys (l0 :: ls)).length := List.length_pos.mpr hne
      have hidx : i % (argmin_keys (l0 :: ls)).length < (argmin_keys (l0 :: ls)).length :=
        Nat.mod_lt _ hlen
      refine ⟨_, rfl, ?_⟩
      rw [List.getD_eq_getElem _ _ hidx]
      have hk : (argmin_keys (l0 :: ls))[i % (argmin_keys (l0 :: ls)).length] ∈
          argmin_keys (l0 :: ls) := List.getElem_mem hidx
      exact List.mem_map_of_mem Prod.fst (argmin_keys_mem _ _ hk)
    · rw [if_neg ht]
      refine ⟨_, rfl, ?_⟩
      exact cdfPick_mem _ _ _ (by simp)

/-! ## Claims about softmax_sample -/

/-- CLAIM C7: for every singleton logits map `{k: v}`, `softmax_sample`
returns `k`, for every logit value `v`, every temperature (including 0),
every exponential function and every random draw. -/
theorem softmax_sample_singleton (k : Int) (v : ℚ) (t : ℚ) (e : ℚ → ℚ)
    (i : Nat) (s : ℚ) : softmax_sample [(k, v)] t e i s = some k := by
  rw [softmax_sample]
  by_cases ht : t = 0
  · rw [if_pos ht]
    simp [argmin_keys, min_logit, foldMin, Nat.mod_one]
  · rw [if_neg ht]
    simp only [List.map_cons, List.map_nil, List.length_cons, List.length_nil]
    have hmm : foldMin [v] = foldMax [v] := rfl
    rw [if_pos hmm]
    unfold cdfPick cdfWalk
    by_cases hs : s ≤ (1 : ℚ)
    · norm_num [hs]
    · norm_num [hs, cdfWalk]

/-- CLAIM C6: for every non-empty logits map, `softmax_sample` with
temperature 0 returns the entry of `argmin_keys` selected by the uniform
random index (so the draw is uniform over the keys attaining the minimum);
`argmin_keys` is non-empty, each of its entries is a key of the map whose
logit is `min_logit`, and `min_logit` is a lower bound of all logits in the
map. -/
theorem softmax_sample_zero_temperature (logits : List (Int × ℚ)) (e : ℚ → ℚ)
    (i : Nat) (s : ℚ) (h : logits ≠ []) :
    softmax_sample logits 0 e i s =
      some ((argmin_keys logits).getD (i % (argmin_keys logits).length) 0) ∧
    0 < (argmin_keys logits).length ∧
    (∀ j, j < (argmin_keys logits).length →
      ((argmin_keys logits).getD j 0, min_logit logits) ∈ logits) ∧
    (∀ p ∈ logits, min_logit logits ≤ p.2) := by
  refine ⟨?_, ?_, ?_, min_logit_le logits h⟩
  · match logits with
    | [] => exact absurd rfl h
    | l0 :: ls => rw [softmax_sample, if_pos rfl]
  · exact List.length_pos.mpr (argmin_keys_ne_nil logits h)
  · intro j hj
    rw [List.getD_eq_getElem _ _ hj]
    exact argmin_keys_mem _ _ (List.getElem_mem hj)

/-- Witness for C6 at the concrete logits map `{1: 5, 2: 3, 3: 7, 4: 3}`
(minimum 3, attained by keys 2 and 4; index 0 picks key 2). -/
theorem softmax_sample_zero_temperature_witness :
    softmax_sample [(1, 5), (2, 3), (3, 7), (4, 3)] 0 (fun q => q) 0 0 =
      some ((argmin_keys [(1, 5), (2, 3), (3, 7), (4, 3)]).getD
        (0 % (argmin_keys [(1, 5), (2, 3), (3, 7), (4, 3)]).length) 0) ∧
    0 < (argmin_keys [(1, 5), (2, 3), (3, 7), (4, 3)]).length ∧
    (∀ j, j < (argmin_keys [(1, 5), (2, 3), (3, 7), (4, 3)]).length →
      ((argmin_keys [(1, 5), (2, 3), (3, 7), (4, 3)]).getD j 0,
        min_logit [(1, 5), (2, 3), (3, 7), (4, 3)]) ∈
        [((1 : Int), (5 : ℚ)), (2, 3), (3, 7), (4, 3)]) ∧
    (∀ p ∈ [((1 : Int), (5 : ℚ)), (2, 3), (3, 7), (4, 3)],
      min_logit [(1, 5), (2, 3), (3, 7), (4, 3)] ≤ p.2) :=
  softmax_sample_zero_temperature [(1, 5), (2, 3), (3, 7), (4, 3)]
    (fun q => q) 0 0 (List.cons_ne_nil _ _)

/-! ## Helper lemmas about select_worker -/

theorem worker_logit_entry_fst (sel : DefaultWorkerSelector)
    (workers : List (Int × Option ModelRuntimeConfig)) (request : SchedulingRequest)
    (block_size : Nat) (wc : Int × Option ModelRuntimeConfig) (p : Int × ℚ)
    (h : worker_logit_entry sel workers request block_size wc = some p) :
    p.1 = wc.1 := by
  simp only [worker_logit_entry] at h
  split at h
  · split at h
    · injection h with h2
      rw [← h2]
    · cases h
  · injection h with h2
    rw [← h2]

theorem worker_logits_fst_subset (sel : DefaultWorkerSelector)
    (workers : List (Int × Option ModelRuntimeConfig)) (request : SchedulingRequest)
    (block_size : Nat) (k : Int)
    (hk : k ∈ (worker_logits sel workers request block_size).map Prod.fst) :
    k ∈ workers.map Prod.fst := by
  rcases List.mem_map.mp hk with ⟨p, hp, hpk⟩
  have hp2 : ∃ a b, (a, b) ∈ workers ∧
      worker_logit_entry sel workers request block_size (a, b) = some p := by
    simpa [worker_logits, List.mem_filterMap] using hp
  rcases hp2 with ⟨a, b, hab, hsome⟩
  refine List.mem_map.mpr ⟨(a, b), hab, ?_⟩
  rw [← hpk]
  exact (worker_logit_entry_fst _ _ _ _ _ _ hsome).symm

theorem worker_logits_gate_off_ne_nil (sel : DefaultWorkerSelector)
    (workers : List (Int × Option ModelRuntimeConfig)) (request : SchedulingRequest)
    (block_size : Nat) (hu : sel.use_isl_threshold = false) (hw : workers ≠ []) :
    worker_logits sel workers request block_size ≠ [] := by
  match workers with
  | [] => exact absurd rfl hw
  | wc :: rest =>
    rw [worker_logits, List.filterMap_cons]
    unfold worker_logit_entry
    rw [hu]
    simp

theorem select_worker_of_some (sel : DefaultWorkerSelector)
    (workers : List (Int × Option ModelRuntimeConfig)) (request : SchedulingRequest)
    (block_size : Nat) (e : ℚ → ℚ) (i : Nat) (s : ℚ) (k : Int)
    (hisl : request.isl_tokens ≠ 0) (hw : workers ≠ []) (hbs : block_size ≠ 0)
    (hsm : softmax_sample (worker_logits sel workers request block_size)
      (effective_temperature sel request) e i s = some k) :
    select_worker sel workers request block_size e i s =
      .ok { worker_id := k
            required_blocks := (request.isl_tokens + block_size - 1) / block_size
            overlap_blocks := (List.lookup k request.overlaps.scores).getD 0 } := by
  have hwe : workers.isEmpty = false := by simpa [List.isEmpty_iff] using hw
  simp [select_worker, hisl, hwe, hbs, hsm]

theorem select_worker_of_none (sel : DefaultWorkerSelector)
    (workers : List (Int × Option ModelRuntimeConfig)) (request : SchedulingRequest)
    (block_size : Nat) (e : ℚ → ℚ) (i : Nat) (s : ℚ)
    (hisl : request.isl_tokens ≠ 0) (hw : workers ≠ []) (hbs : block_size ≠ 0)
    (hsm : softmax_sample (worker_logits sel workers request block_size)
      (effective_temperature sel request) e i s = none) :
    select_worker sel workers request block_size e i s =
      .panicked "Empty logits for softmax sampling" := by
  have hwe : workers.isEmpty = false := by simpa [List.isEmpty_iff] using hw
  simp [select_worker, hisl, hwe, hbs, hsm]

theorem cast_add_pred_div_eq_ceil (a b : Nat) (hb : 0 < b) :
    (((a + b - 1) / b : Nat) : ℤ) = ⌈(a : ℚ) / (b : ℚ)⌉ := by
  have h1 : b * ((a + b - 1) / b) + (a + b - 1) % b = a + b - 1 := Nat.div_add_mod _ _
  have h2 : (a + b - 1) % b < b := Nat.mod_lt _ hb
  have key1 : a ≤ b * ((a + b - 1) / b) := by omega
  have key2 : b * ((a + b - 1) / b) < a + b := by omega
  have hb' : (0 : ℚ) < (b : ℚ) := by exact_mod_cast hb
  symm
  rw [Int.ceil_eq_iff]
  refine ⟨?_, ?_⟩
  · rw [lt_div_iff₀ hb']
    have hq : (b : ℚ) * ((((a + b - 1) / b : ℕ) : ℤ) : ℚ) < (a : ℚ) + (b : ℚ) := by
      exact_mod_cast key2
    linarith
  · rw [div_le_iff₀ hb']
    have hq : (a : ℚ) ≤ (b : ℚ) * ((((a + b - 1) / b : ℕ) : ℤ) : ℚ) := by
      exact_mod_cast key1
    linarith

/-! ## Claims about select_worker -/

/-- CLAIM C1 (amended): for every request with `isl_tokens > 0` and every
`block_size > 0`, `select_worker` fails with `NoEndpoints` exactly when the
workers map is empty; when the post-gate candidate map `worker_logits` is
non-empty — which is always the case for a non-empty workers map when the
ISL-threshold gate is disabled — it returns `Ok` with a worker drawn from
the workers map.  (When the gate is enabled and filters out every worker,
the call instead panics inside `softmax_sample`; see the counterexample.) -/
theorem select_worker_spec (sel : DefaultWorkerSelector)
    (workers : List (Int × Option ModelRuntimeConfig)) (request : SchedulingRequest)
    (block_size : Nat) (e : ℚ → ℚ) (i : Nat) (s : ℚ)
    (hisl : 0 < request.isl_tokens) (hbs : 0 < block_size) :
    (select_worker sel workers request block_size e i s = .err .NoEndpoints ↔ workers = []) ∧
    (worker_logits sel workers request block_size ≠ [] →
      ∃ r, select_worker sel workers request block_size e i s = .ok r ∧
        r.worker_id ∈ workers.map Prod.fst) ∧
    (sel.use_isl_threshold = false → workers ≠ [] →
      worker_logits sel workers request block_size ≠ []) := by
  have hne : request.isl_tokens ≠ 0 := by omega
  have hbne : block_size ≠ 0 := by omega
  by_cases hw : workers = []
  · subst hw
    refine ⟨?_, ?_, ?_⟩
    · simp [select_worker, hne]
    · intro hlog
      exact absurd (by simp [worker_logits]) hlog
    · intro _ hcontra
      exact absurd rfl hcontra
  · have hok_or : ∀ r, select_worker sel workers request block_size e i s = .ok r →
        select_worker sel workers request block_size e i s ≠ .err .NoEndpoints := by
      intro r hr
      rw [hr]
      intro hcontra
      cases hcontra
    refine ⟨?_, ?_, fun hu hne2 => worker_logits_gate_off_ne_nil sel workers request block_size hu hne2⟩
    · constructor
      · intro hsel
        exfalso
        rcases hsm : softmax_sample (worker_logits sel workers request block_size)
            (effective_temperature sel request) e i s with _ | k
        · rw [select_worker_of_none sel workers request block_size e i s hne hw hbne hsm] at hsel
          cases hsel
        · rw [select_worker_of_some sel workers request block_size e i s k hne hw hbne hsm] at hsel
          cases hsel
      · intro hcontra
        exact absurd hcontra hw
    · intro hlog
      rcases softmax_sample_mem (worker_logits sel workers request block_size)
          (effective_temperature sel request) e i s hlog with ⟨k, hsm, hkmem⟩
      refine ⟨_, select_worker_of_some sel workers request block_size e i s k hne hw hbne hsm, ?_⟩
      exact worker_logits_fst_subset sel workers request block_size k hkmem

/-- CLAIM C4: for every request with `isl_tokens > 0` and every
`block_size > 0`, a successful `select_worker` result carries
`required_blocks = ⌈isl_tokens / block_size⌉`. -/
theorem select_worker_required_blocks (sel : DefaultWorkerSelector)
    (workers : List (Int × Option ModelRuntimeConfig)) (request : SchedulingRequest)
    (block_size : Nat) (e : ℚ → ℚ) (i : Nat) (s : ℚ) (r : WorkerSelectionResult)
    (hisl : 0 < request.isl_tokens) (hbs : 0 < block_size)
    (hok : select_worker sel workers request block_size e i s = .ok r) :
    (r.required_blocks : ℤ) = ⌈(request.isl_tokens : ℚ) / (block_size : ℚ)⌉ := by
  have hne : request.isl_tokens ≠ 0 := by omega
  have hbne : block_size ≠ 0 := by omega
  by_cases hw : workers = []
  · subst hw
    rw [show select_worker sel [] request block_size e i s = .err .NoEndpoints by
      simp [select_worker, hne]] at hok
    cases hok
  · rcases hsm : softmax_sample (worker_logits sel workers request block_size)
        (effective_temperature sel request) e i s with _ | k
    · rw [select_worker_of_none sel workers request block_size e i s hne hw hbne hsm] at hok
      cases hok
    · rw [select_worker_of_some sel workers request block_size e i s k hne hw hbne hsm] at hok
      injection hok with h2
      rw [← h2]
      exact cast_add_pred_div_eq_ceil request.isl_tokens block_size hbs

/-! ## Concrete instances used by witnesses and counterexamples -/

/-- A selector with the ISL-threshold gate disabled, unit overlap weight,
temperature 0 (the `KvRouterConfig` defaults). -/
def exSelector : DefaultWorkerSelector :=
  { kv_router_config := { overlap_score_weight := 1, router_temperature := 0 }
    use_isl_threshold := false
    isl_threshold := 1024 }

/-- The same selector with the ISL-threshold gate enabled. -/
def exGateSelector : DefaultWorkerSelector :=
  { kv_router_config := { overlap_score_weight := 1, router_temperature := 0 }
    use_isl_threshold := true
    isl_threshold := 1024 }

/-- A request with 10 input tokens and no recorded per-worker state. -/
def exRequest10 : SchedulingRequest :=
  { maybe_request_id := some "req-1"
    token_seq := none
    isl_tokens := 10
    overlaps := { scores := [] }
    decode_blocks := []
    prefill_tokens := []
    router_config_override := none
    update_states := true }

/-- A request with 2048 input tokens (beyond the ISL threshold of 1024). -/
def exRequest2048 : SchedulingRequest :=
  { maybe_request_id := some "req-2"
    token_seq := none
    isl_tokens := 2048
    overlaps := { scores := [] }
    decode_blocks := []
    prefill_tokens := []
    router_config_override := none
    update_states := true }

/-- Witness for C1 (amended) at the concrete input of spec scenario 1:
a single worker 7 with no config, 10 input tokens, block size 4. -/
theorem select_worker_spec_witness :
    (select_worker exSelector [(7, none)] exRequest10 4 (fun q => q) 0 0 = .err .NoEndpoints ↔
      [((7 : Int), (none : Option ModelRuntimeConfig))] = []) ∧
    (worker_logits exSelector [(7, none)] exRequest10 4 ≠ [] →
      ∃ r, select_worker exSelector [(7, none)] exRequest10 4 (fun q => q) 0 0 = .ok r ∧
        r.worker_id ∈ [((7 : Int), (none : Option ModelRuntimeConfig))].map Prod.fst) ∧
    (exSelector.use_isl_threshold = false →
      [((7 : Int), (none : Option ModelRuntimeConfig))] ≠ [] →
      worker_logits exSelector [(7, none)] exRequest10 4 ≠ []) :=
  select_worker_spec exSelector [(7, none)] exRequest10 4 (fun q => q) 0 0
    (by decide) (by decide)

/-- Counterexample to C1 as stated: the workers map `{1: no config}` is
non-empty and `isl_tokens = 2048 > 0`, but with the ISL-threshold gate
enabled (threshold 1024) the monolithic worker 1 is filtered out
(`2048 < 1024` fails), every candidate is gone, and `select_worker` panics
inside `softmax_sample` instead of returning `Ok` or `NoEndpoints`. -/
theorem select_worker_gate_filters_all_panics :
    0 < exRequest2048.isl_tokens ∧
    [((1 : Int), (none : Option ModelRuntimeConfig))] ≠ [] ∧
    select_worker exGateSelector [(1, none)] exRequest2048 4 (fun q => q) 0 0 =
      .panicked "Empty logits for softmax sampling" ∧
    ∀ r, select_worker exGateSelector [(1, none)] exRequest2048 4 (fun q => q) 0 0 ≠ .ok r := by
  have h : select_worker exGateSelector [(1, none)] exRequest2048 4 (fun q => q) 0 0 =
      .panicked "Empty logits for softmax sampling" := by
    norm_num [select_worker, worker_logits, worker_logit_entry, softmax_sample,
      effective_temperature, is_pd_separated, f64_as_usize, exGateSelector, exRequest2048,
      List.filterMap_cons, List.lookup]
  refine ⟨by decide, by decide, h, ?_⟩
  intro r hr
  rw [h] at hr
  cases hr

/-- Witness for C4 at spec scenario 1: worker 7, 10 input tokens, block size
4, required blocks `⌈10/4⌉ = 3`. -/
theorem select_worker_required_blocks_witness :
    ((({ worker_id := 7, required_blocks := 3, overlap_blocks := 0 } :
        WorkerSelectionResult).required_blocks : Nat) : ℤ) =
      ⌈(exRequest10.isl_tokens : ℚ) / ((4 : Nat) : ℚ)⌉ :=
  select_worker_required_blocks exSelector [(7, none)] exRequest10 4 (fun q => q) 0 0
    { worker_id := 7, required_blocks := 3, overlap_blocks := 0 }
    (by decide) (by decide)
    (by norm_num [select_worker, worker_logits, worker_logit_entry, softmax_sample, argmin_keys,
      min_logit, foldMin, effective_temperature, is_pd_separated, exSelector, exRequest10,
      List.filterMap_cons, List.lookup])

/-! ## Claims about the scheduler loop -/

theorem scheduler_step_ok_fields (selection : WorkerSelectionResult)
    (request : SchedulingRequest) :
    (scheduler_step (.ok selection) request).published =
      some { worker_id := selection.worker_id
             isl_blocks := selection.required_blocks
             overlap_blocks := selection.overlap_blocks } ∧
    (scheduler_step (.ok selection) request).replied =
      some { best_worker_id := selection.worker_id
             overlap_blocks := selection.overlap_blocks } ∧
    (scheduler_step (.ok selection) request).continues = true := by
  rcases request with ⟨rid, ts, isl, ov, db, pt, ovr, us⟩
  cases us <;> cases rid <;> simp [scheduler_step]

/-- CLAIM C5: for every scheduling request the selector resolves
successfully, the published `KVHitRateEvent` carries `worker_id` equal to the
`best_worker_id` replied to that same caller (which is what `schedule`
returns), `isl_blocks` equal to the selection's `required_blocks`, and
`overlap_blocks` equal to the selection's `overlap_blocks`. -/
theorem hit_rate_event_matches_response (sel : DefaultWorkerSelector)
    (workers : List (Int × Option ModelRuntimeConfig)) (request : SchedulingRequest)
    (block_size : Nat) (e : ℚ → ℚ) (i : Nat) (s : ℚ) (r : WorkerSelectionResult)
    (hok : select_worker sel workers request block_size e i s = .ok r) :
    (scheduler_step (select_worker sel workers request block_size e i s) request).published =
      some { worker_id := r.worker_id
             isl_blocks := r.required_blocks
             overlap_blocks := r.overlap_blocks } ∧
    (scheduler_step (select_worker sel workers request block_size e i s) request).replied =
      some { best_worker_id := r.worker_id
             overlap_blocks := r.overlap_blocks } ∧
    caller_observes
      (scheduler_step (select_worker sel workers request block_size e i s) request) =
      .ok r.worker_id := by
  rw [hok]
  obtain ⟨h1, h2, h3⟩ := scheduler_step_ok_fields r request
  exact ⟨h1, h2, by simp [caller_observes, h2]⟩

/-- Witness for C5 at spec scenario 1: worker 7, 10 input tokens, block size
4; the published event is `{worker_id: 7, isl_blocks: 3, overlap_blocks: 0}`
and the caller is answered `Ok(7)`. -/
theorem hit_rate_event_matches_response_witness :
    (scheduler_step (select_worker exSelector [(7, none)] exRequest10 4 (fun q => q) 0 0)
        exRequest10).published =
      some { worker_id := 7, isl_blocks := 3, overlap_blocks := 0 } ∧
    (scheduler_step (select_worker exSelector [(7, none)] exRequest10 4 (fun q => q) 0 0)
        exRequest10).replied =
      some { best_worker_id := 7, overlap_blocks := 0 } ∧
    caller_observes
      (scheduler_step (select_worker exSelector [(7, none)] exRequest10 4 (fun q => q) 0 0)
        exRequest10) = .ok 7 :=
  hit_rate_event_matches_response exSelector [(7, none)] exRequest10 4 (fun q => q) 0 0
    { worker_id := 7, required_blocks := 3, overlap_blocks := 0 }
    (by norm_num [select_worker, worker_logits, worker_logit_entry, softmax_sample, argmin_keys,
      min_logit, foldMin, effective_temperature, is_pd_separated, exSelector, exRequest10,
      List.filterMap_cons, List.lookup])

/-- CLAIM C2 (amended): when `select_worker` returns `NoEndpoints` or
`AllWorkersBusy` the scheduler loop continues with the next request without
replying — it is not shutting down — but because the dropped request's
one-shot sender is dropped, the caller of `schedule` nevertheless observes
`SubscriberShutdown`. -/
theorem scheduler_drop_observes_shutdown (request : SchedulingRequest)
    (err : KvSchedulerError) (h : err = .NoEndpoints ∨ err = .AllWorkersBusy) :
    (scheduler_step (.err err) request).continues = true ∧
    (scheduler_step (.err err) request).replied = none ∧
    caller_observes (scheduler_step (.err err) request) = .err .SubscriberShutdown := by
  rcases h with h | h <;> subst h <;> exact ⟨rfl, rfl, rfl⟩

/-- Witness for C2 (amended) at the `NoEndpoints` error and a concrete
request. -/
theorem scheduler_drop_observes_shutdown_witness :
    (scheduler_step (.err .NoEndpoints) exRequest10).continues = true ∧
    (scheduler_step (.err .NoEndpoints) exRequest10).replied = none ∧
    caller_observes (scheduler_step (.err .NoEndpoints) exRequest10) =
      .err .SubscriberShutdown :=
  scheduler_drop_observes_shutdown exRequest10 .NoEndpoints (Or.inl rfl)

/-- Counterexample to C2 as stated: with the empty workers map the selector
returns `NoEndpoints`; the scheduler loop continues with the next request (it
is not shutting down), yet the dropped request's caller observes
`SubscriberShutdown`. -/
theorem scheduler_drop_shutdown_cex :
    select_worker exSelector [] exRequest10 4 (fun q => q) 0 0 = .err .NoEndpoints ∧
    (scheduler_step (select_worker exSelector [] exRequest10 4 (fun q => q) 0 0)
      exRequest10).continues = true ∧
    caller_observes
      (scheduler_step (select_worker exSelector [] exRequest10 4 (fun q => q) 0 0)
        exRequest10) = .err .SubscriberShutdown := by
  have h : select_worker exSelector [] exRequest10 4 (fun q => q) 0 0 = .err .NoEndpoints := by
    simp [select_worker, exRequest10]
  exact ⟨h, by rw [h]; rfl, by rw [h]; rfl⟩

/-- CLAIM C10: calling `select_worker` with `isl_tokens = 0` panics via the
entry assertion rather than returning an error variant; in the scheduler
loop this unwinds the consumer task (the step does not continue) and no
response is sent to the caller. -/
theorem select_worker_isl_zero_panics (sel : DefaultWorkerSelector)
    (workers : List (Int × Option ModelRuntimeConfig)) (request : SchedulingRequest)
    (block_size : Nat) (e : ℚ → ℚ) (i : Nat) (s : ℚ)
    (h : request.isl_tokens = 0) :
    select_worker sel workers request block_size e i s =
      .panicked "assertion failed: request.isl_tokens > 0" ∧
    (scheduler_step (select_worker sel workers request block_size e i s) request).replied =
      none ∧
    (scheduler_step (select_worker sel workers request block_size e i s) request).continues =
      false := by
  have hsel : select_worker sel workers request block_size e i s =
      .panicked "assertion failed: request.isl_tokens > 0" := by
    simp [select_worker, h]
  exact ⟨hsel, by rw [hsel]; rfl, by rw [hsel]; rfl⟩

/-- A request identical to `exRequest10` but with `isl_tokens = 0`. -/
def exRequest0 : SchedulingRequest :=
  { maybe_request_id := some "req-0"
    token_seq := none
    isl_tokens := 0
    overlaps := { scores := [] }
    decode_blocks := []
    prefill_tokens := []
    router_config_override := none
    update_states := true }

/-- Witness for C10 at a concrete request with `isl_tokens = 0`. -/
theorem select_worker_isl_zero_panics_witness :
    select_worker exSelector [(7, none)] exRequest0 4 (fun q => q) 0 0 =
      .panicked "assertion failed: request.isl_tokens > 0" ∧
    (scheduler_step (select_worker exSelector [(7, none)] exRequest0 4 (fun q => q) 0 0)
      exRequest0).replied = none ∧
    (scheduler_step (select_worker exSelector [(7, none)] exRequest0 4 (fun q => q) 0 0)
      exRequest0).continues = false :=
  select_worker_isl_zero_panics exSelector [(7, none)] exRequest0 4 (fun q => q) 0 0 rfl

/-- Supporting fact for C3: the startup cleanup (`cleanup_orphaned_consumers`)
never deletes the task's own consumer, for any consumer list and any router
directory contents. -/
theorem cleanup_orphaned_consumers_skips_self (consumers router_entry_keys : List String)
    (consumer_uuid : String) :
    consumer_uuid ∉ cleanup_orphaned_consumers consumers router_entry_keys consumer_uuid := by
  intro h
  rcases List.mem_filter.mp h with ⟨_, hcond⟩
  simp only [Bool.and_eq_true, decide_eq_true_eq] at hcond
  exact hcond.1 rfl

/-- CLAIM C3 is violated by the steady-state handler (code bug): a `Delete`
event on the live-routers prefix whose key is the task's own entry — same
component path, last segment equal to the task's own consumer UUID
(`"3f2a"` below) — is not skipped: once the cleanup lock is acquired, the
handler issues `nats_queue.shutdown(Some("3f2a"))`, deleting the task's own
durable consumer.  The self-check (`consumer == consumer_uuid → skip`) exists
only in the startup path, see `cleanup_orphaned_consumers_skips_self`. -/
theorem router_deletion_handler_deletes_self :
    router_deletion_handler "dynamo.kv-router" "v1/kv_routers/dynamo.kv-router/3f2a" true =
      some "3f2a" := by
  decide

/-! ## Claims about the addressed transport response stream -/

/-- CLAIM C8: if the response channel delivers one message parsing as
`{complete_final: true, data: Some(x)}` followed by channel close, the
response sequence emits `x` and then ends with no further items and no
error — whether or not the caller has since cancelled. -/
theorem stream_end_after_final (x : String) (stopped : Bool) :
    response_emissions stopped false [some (.parsed true (some x)), none] = [.item x] :=
  rfl

/-- CLAIM C9: a message parsing as `{complete_final: false, data: None}` —
a shape absent from the spec's state-machine table — makes the closure emit
the "Empty response received" error item while leaving `is_complete_final`
false, and the stream continues with the remaining input rather than
ending. -/
theorem empty_response_error_continues (stopped : Bool) (rest : List (Option RecvMsg)) :
    response_step stopped false (some (.parsed false none)) = (some .errEmpty, false) ∧
    response_emissions stopped false (some (.parsed false none) :: rest) =
      .errEmpty :: response_emissions stopped false rest :=
  ⟨rfl, rfl⟩
